import Mathlib

/-!
Shallow embedding of `src/stats/event-exporter-transport-file.c` (Dovecot's
file/unix-socket event-exporter transport): per-destination sink nodes with
lazy open, 60-second diagnostic throttling, vectored payload+newline writes,
and a process-wide registry supporting broadcast reopen and teardown.

External I/O (the OS `open`/`connect` calls, `o_stream_sendv` success or
failure, `o_stream_finish` flush results) is parameterized: every operation
takes the outcome of its external calls as explicit arguments, and returns the
updated state together with the list of diagnostics it emitted via `i_error`.
Times (`time_t`, `ioloop_time`) are modelled as `Int`.
-/

namespace EventExporterFile

/-- A payload byte. -/
abbrev Byte := Nat

/-- `EXPORTER_LAST_ERROR_DELAY` from the source: the diagnostic cooldown,
in seconds. -/
def EXPORTER_LAST_ERROR_DELAY : Int := 60

/-- The POSIX `EACCES` errno value; the source tests `errno != EACCES`. -/
def EACCES : Nat := 13

/-- The newline byte appended by the write path as the record delimiter. -/
def newlineByte : Byte := 10

/-- Model of a Dovecot `struct ostream` as this transport uses it: the stream
name (`o_stream_set_name` / `o_stream_get_name`), the `closed` flag set by
`o_stream_close`, and the bytes accepted into the stream so far
(`o_stream_sendv`).  `sid` is the allocation identity of the stream object: a
freshly created stream object is distinct from every previously created one,
which we track with a counter supplied at creation. -/
structure OStream where
  sid : Nat
  name : String
  closed : Bool
  written : List Byte
  deriving Repr, DecidableEq

/-- `struct file_event_exporter`: one sink node.  `output = none` and
`fd = -1` model the NULL stream pointer and the closed descriptor. -/
structure Node where
  fname : String
  output : Option OStream
  fd : Int
  last_error : Int
  connect_timeout_msecs : Nat
  unix_socket : Bool
  deriving Repr, DecidableEq

/-- The diagnostics this transport can emit through `i_error`, carrying the
data interpolated into each message. -/
inductive Diag where
  /-- Generic open/connect failure: the failed function and the destination. -/
  | openFailed (func fname : String)
  /-- `eacces_error_get_creating`: the specialized insufficient-privilege
  diagnostic for `EACCES`. -/
  | eaccesCreating (func fname : String)
  /-- Write failure reported by `event_exporter_file_write`, carrying the
  stream name and the stream error text. -/
  | writeFailed (name err : String)
  /-- Flush failure reported by `exporter_file_close` when `o_stream_finish`
  fails, carrying the node file name and the stream error text. -/
  | finishFailed (fname err : String)
  deriving Repr, DecidableEq

/-- Modelled from the spec: `o_stream_create_fd_file` / `o_stream_create_unix`
(library code outside src/) wrap a fresh descriptor in a buffered, initially
unnamed writer with nothing written yet; `sid` is the fresh allocation
identity of the new stream object. -/
def o_stream_create (sid : Nat) : OStream :=
  { sid := sid, name := "", closed := false, written := [] }

/-- `exporter_file_close`: finish (flush) the stream, reporting a flush
failure unconditionally and stamping `last_error`; then destroy the stream
and close the descriptor.  `flushErr = none` models `o_stream_finish`
succeeding, `flushErr = some err` models it returning a negative value with
error text `err`; a node that never opened (`output = none`) has nothing
buffered and flushes trivially. -/
def exporter_file_close (node : Node) (now : Int) (flushErr : Option String) :
    Node × List Diag :=
  match node.output with
  | none => ({ node with output := none, fd := -1 }, [])
  | some _ =>
    match flushErr with
    | some err =>
      ({ node with output := none, fd := -1, last_error := now },
       [Diag.finishFailed node.fname err])
    | none => ({ node with output := none, fd := -1 }, [])

/-- `exporter_file_open_error`: emit the permission-denied-specific diagnostic
for `EACCES` and the generic one for every other errno, then stamp
`last_error` with the current time. -/
def exporter_file_open_error (node : Node) (func : String) (errno : Nat)
    (now : Int) : Node × List Diag :=
  let d := if errno ≠ EACCES then Diag.openFailed func node.fname
           else Diag.eaccesCreating func node.fname
  ({ node with last_error := now }, [d])

/-- `exporter_file_open_unix`: `conn` is the outcome of
`net_connect_unix_with_retries` (`Except.error errno` for a failed connect,
`Except.ok fd` for an established descriptor).  On failure the open error is
reported only outside the cooldown window; on success the descriptor is
wrapped in a fresh stream. -/
def exporter_file_open_unix (node : Node) (now : Int) (sid : Nat)
    (conn : Except Nat Nat) : Node × List Diag × Bool :=
  match conn with
  | Except.error errno =>
    let node := { node with fd := -1 }
    if now - node.last_error > EXPORTER_LAST_ERROR_DELAY then
      let (node, ds) := exporter_file_open_error node "connect" errno now
      (node, ds, false)
    else
      (node, [], false)
  | Except.ok fd =>
    ({ node with fd := (fd : Int), output := some (o_stream_create sid) },
     [], true)

/-- `exporter_file_open_plain`: `res` is the outcome of the OS
`open(fname, O_CREAT|O_APPEND|O_WRONLY, 0600)` call.  Mirrors
`exporter_file_open_unix` but reports the failed function as `open`. -/
def exporter_file_open_plain (node : Node) (now : Int) (sid : Nat)
    (res : Except Nat Nat) : Node × List Diag × Bool :=
  match res with
  | Except.error errno =>
    let node := { node with fd := -1 }
    if now - node.last_error > EXPORTER_LAST_ERROR_DELAY then
      let (node, ds) := exporter_file_open_error node "open" errno now
      (node, ds, false)
    else
      (node, [], false)
  | Except.ok fd =>
    ({ node with fd := (fd : Int), output := some (o_stream_create sid) },
     [], true)

/-- `o_stream_set_name(node->output, node->fname)` after a successful open. -/
def node_set_name (node : Node) : Node :=
  match node.output with
  | some os => { node with output := some { os with name := node.fname } }
  | none => node

/-- The slow path of `exporter_file_open`, taken after `o_stream_destroy` and
`i_close_fd` have torn down any stale stream and descriptor: run the
kind-specific opener, and name the stream on success. -/
def exporter_file_open_fresh (node : Node) (now : Int) (sid : Nat)
    (res : Except Nat Nat) : Node × List Diag × Bool :=
  let r := if node.unix_socket then exporter_file_open_unix node now sid res
           else exporter_file_open_plain node now sid res
  if r.2.2 then (node_set_name r.1, r.2.1, true) else r

/-- `exporter_file_open`: the fast path returns TRUE when the stream exists
and is not closed; otherwise any stale stream/descriptor is torn down and the
kind-specific opener runs, naming the stream on success. -/
def exporter_file_open (node : Node) (now : Int) (sid : Nat)
    (res : Except Nat Nat) : Node × List Diag × Bool :=
  match node.output with
  | some os =>
    if os.closed then
      exporter_file_open_fresh { node with output := none, fd := -1 } now sid res
    else
      (node, [], true)
  | none =>
    exporter_file_open_fresh { node with output := none, fd := -1 } now sid res

/-- `event_exporter_file_write`: one vectored `o_stream_sendv` of the payload
followed by the single newline delimiter.  `wr = none` models the send
succeeding (the concatenated iovecs are appended to the stream in one step);
`wr = some err` models it returning a negative count with stream error text
`err`: the failure is reported only outside the cooldown window, and the
stream is closed unconditionally.  The caller guarantees an open stream;
`output = none` is unreachable and left as a no-op. -/
def event_exporter_file_write (node : Node) (buf : List Byte) (now : Int)
    (wr : Option String) : Node × List Diag :=
  match node.output with
  | none => (node, [])
  | some os =>
    match wr with
    | none =>
      ({ node with
          output := some
            { os with written := os.written ++ (buf ++ [newlineByte]) } }, [])
    | some err =>
      let (node1, ds) :=
        if now - node.last_error > EXPORTER_LAST_ERROR_DELAY then
          ({ node with last_error := now }, [Diag.writeFailed os.name err])
        else (node, [])
      ({ node1 with output := some { os with closed := true } }, ds)

/-- `t_strcut(str, c)`: the portion of `str` before the first occurrence of
the cut character `c`. -/
def t_strcut (s : String) (c : Char) : String :=
  s.takeWhile (fun ch => ch ≠ c)

/-- The fields of `struct event_exporter` this transport consumes, plus the
`transport_context` slot.  Contexts are modelled as registry keys (allocation
identities of nodes) rather than raw pointers. -/
structure Exporter where
  transport_args : String
  transport_timeout : Nat
  transport_context : Option Nat
  deriving Repr, DecidableEq

/-- The process-wide state: `list` models the intrusive
`exporter_file_list_head` chain (newest node first) with each node paired
with its allocation identity; `nextNodeId` and `nextSid` are the allocation
counters for node and stream identities; `diags` accumulates every `i_error`
emitted so far, in order. -/
structure Sys where
  list : List (Nat × Node)
  nextNodeId : Nat
  nextSid : Nat
  diags : List Diag
  deriving Repr, DecidableEq

/-- The node built by `exporter_file_init`: file name cut at the first space
of the transport args, no stream, descriptor -1, zeroed `last_error`
(`i_new` zero-fills the struct). -/
def exporter_file_init_node (ex : Exporter) (unix_socket : Bool) : Node :=
  { fname := t_strcut ex.transport_args ' '
    output := none
    fd := -1
    last_error := 0
    connect_timeout_msecs := ex.transport_timeout
    unix_socket := unix_socket }

/-- `exporter_file_init`: allocate a fresh node, push it at the head of the
registry list and assign it as the exporter's transport context. -/
def exporter_file_init (sys : Sys) (ex : Exporter) (unix_socket : Bool) :
    Sys × Exporter × Nat :=
  let id := sys.nextNodeId
  ({ sys with
      list := (id, exporter_file_init_node ex unix_socket) :: sys.list
      nextNodeId := id + 1 },
   { ex with transport_context := some id }, id)

/-- First node registered under `id`, mirroring a pointer dereference into
the intrusive list. -/
def lookupNode : List (Nat × Node) → Nat → Option Node
  | [], _ => none
  | (i, n) :: t, id => if i = id then some n else lookupNode t id

/-- Write back the mutated node under `id`, mirroring in-place mutation
through the context pointer. -/
def updateNode (l : List (Nat × Node)) (id : Nat) (n : Node) :
    List (Nat × Node) :=
  l.map (fun p => if p.fst = id then (id, n) else p)

/-- The body of a `send` on one node: ensure the node is open (allocating
stream identity `sid` if a fresh stream is created) and, only if that
succeeded, perform the framed write. -/
def send_on_node (node : Node) (buf : List Byte) (now : Int) (sid : Nat)
    (res : Except Nat Nat) (wr : Option String) : Node × List Diag :=
  let r := exporter_file_open node now sid res
  if r.2.2 then
    let w := event_exporter_file_write r.1 buf now wr
    (w.1, r.2.1 ++ w.2)
  else (r.1, r.2.1)

/-- A `send` that found no live node for the exporter: initialize a fresh
node, register it, then open and write it. -/
def send_fresh (sys : Sys) (ex : Exporter) (unix_socket : Bool)
    (buf : List Byte) (now : Int) (res : Except Nat Nat) (wr : Option String) :
    Sys × Exporter :=
  let i := (exporter_file_init sys ex unix_socket).2.2
  let sys1 := (exporter_file_init sys ex unix_socket).1
  let ex1 := (exporter_file_init sys ex unix_socket).2.1
  let r := send_on_node (exporter_file_init_node ex unix_socket) buf now
      sys1.nextSid res wr
  ({ sys1 with
      list := updateNode sys1.list i r.1
      nextSid := sys1.nextSid + 1
      diags := sys1.diags ++ r.2 }, ex1)

/-- `event_exporter_file_send` / `event_exporter_unix_send` (they differ only
in the `unix_socket` flag passed to `exporter_file_init`): look up the
exporter's node, creating it on first use, then open and write.  Modelled
from the spec: `event_export_transport_assign_context` and the exporter
lifecycle around it are not under src/; per spec section 4.4 `close_all`
empties the registry and leaves it inert, with any later lookup creating a
fresh node, so a transport context that no longer names a registered node
behaves like an absent context. -/
def event_exporter_send (sys : Sys) (ex : Exporter) (unix_socket : Bool)
    (buf : List Byte) (now : Int) (res : Except Nat Nat) (wr : Option String) :
    Sys × Exporter :=
  match ex.transport_context with
  | some i =>
    match lookupNode sys.list i with
    | some n =>
      let r := send_on_node n buf now sys.nextSid res wr
      ({ sys with
          list := updateNode sys.list i r.1
          nextSid := sys.nextSid + 1
          diags := sys.diags ++ r.2 }, ex)
    | none => send_fresh sys ex unix_socket buf now res wr
  | none => send_fresh sys ex unix_socket buf now res wr

/-- `event_exporter_file_send`: the file-transport entry point. -/
def event_exporter_file_send (sys : Sys) (ex : Exporter) (buf : List Byte)
    (now : Int) (res : Except Nat Nat) (wr : Option String) : Sys × Exporter :=
  event_exporter_send sys ex false buf now res wr

/-- `event_exporter_unix_send`: the unix-socket-transport entry point. -/
def event_exporter_unix_send (sys : Sys) (ex : Exporter) (buf : List Byte)
    (now : Int) (res : Except Nat Nat) (wr : Option String) : Sys × Exporter :=
  event_exporter_send sys ex true buf now res wr

/-- `event_exporter_file_deinit`: reset the list head to NULL, then walk the
old chain destroying every node (`exporter_file_destroy` = close + free),
collecting the flush-failure diagnostics in chain order.  `flushErr` gives
the `o_stream_finish` outcome per node identity. -/
def event_exporter_file_deinit (sys : Sys) (now : Int)
    (flushErr : Nat → Option String) : Sys :=
  let ds := (sys.list.map
      (fun p => (exporter_file_close p.snd now (flushErr p.fst)).snd)).foldr
      (fun a b => a ++ b) []
  { sys with list := [], diags := sys.diags ++ ds }

/-- One step of `event_exporter_file_reopen`: close the node unless it is a
unix socket. -/
def reopen_entry (now : Int) (flushErr : Nat → Option String)
    (p : Nat × Node) : Nat × Node :=
  if p.snd.unix_socket then p
  else (p.fst, (exporter_file_close p.snd now (flushErr p.fst)).fst)

/-- The diagnostics one node contributes during
`event_exporter_file_reopen`. -/
def reopen_entry_diags (now : Int) (flushErr : Nat → Option String)
    (p : Nat × Node) : List Diag :=
  if p.snd.unix_socket then []
  else (exporter_file_close p.snd now (flushErr p.fst)).snd

/-- `event_exporter_file_reopen`: close all files, but not unix sockets; the
nodes stay registered. -/
def event_exporter_file_reopen (sys : Sys) (now : Int)
    (flushErr : Nat → Option String) : Sys :=
  { sys with
      list := sys.list.map (reopen_entry now flushErr)
      diags := sys.diags ++
        (sys.list.map (reopen_entry_diags now flushErr)).foldr
          (fun a b => a ++ b) [] }

/-! ## Concrete fixtures used by witnesses -/

/-- A concrete open stream used by witnesses. -/
def wOS : OStream := { sid := 0, name := "stats.log", closed := false, written := [] }

/-- A concrete open file-kind node used by witnesses. -/
def wNode : Node :=
  { fname := "stats.log", output := some wOS, fd := 4, last_error := 0,
    connect_timeout_msecs := 250, unix_socket := false }

/-- A concrete open socket-kind node used by witnesses. -/
def wSock : Node :=
  { fname := "collector.sock",
    output := some { sid := 1, name := "collector.sock", closed := false, written := [] },
    fd := 6, last_error := 0, connect_timeout_msecs := 250, unix_socket := true }

/-- The bytes of the payload `hello`. -/
def helloBytes : List Byte := [104, 101, 108, 108, 111]

/-- The stream produced by a successful fresh open: fresh identity `sid`,
named after the node, open, nothing written yet. -/
def named_stream (sid : Nat) (name : String) : OStream :=
  { sid := sid, name := name, closed := false, written := [] }

/-! ## Shared lemmas about the opener -/

/-- A dormant node (no stream) opens successfully when the OS call provides a
descriptor, on either transport, yielding a fresh named open stream. -/
theorem open_ok_of_dormant (node : Node) (now : Int) (sid fd2 : Nat)
    (hdorm : node.output = none) :
    exporter_file_open node now sid (Except.ok fd2)
      = ({ node with fd := (fd2 : Int), output := some (named_stream sid node.fname) }, [], true) := by
  simp only [exporter_file_open, hdorm]
  cases hb : node.unix_socket <;>
    simp [exporter_file_open_fresh, exporter_file_open_unix,
      exporter_file_open_plain, node_set_name, o_stream_create, named_stream, hb]

/-- A node whose stream is closed reopens successfully when the OS call
provides a descriptor, on either transport, yielding a fresh named open
stream. -/
theorem open_ok_of_closed (node : Node) (os : OStream) (now : Int)
    (sid fd2 : Nat) (hout : node.output = some os) (hcl : os.closed = true) :
    exporter_file_open node now sid (Except.ok fd2)
      = ({ node with fd := (fd2 : Int), output := some (named_stream sid node.fname) }, [], true) := by
  simp only [exporter_file_open, hout, hcl, if_true]
  cases hb : node.unix_socket <;>
    simp [exporter_file_open_fresh, exporter_file_open_unix,
      exporter_file_open_plain, node_set_name, o_stream_create, named_stream, hb]

/-- The node resulting from a write failure: stream closed in place, and
`last_error` stamped only when the failure was outside the cooldown. -/
theorem write_failure_shape (node : Node) (os : OStream) (buf : List Byte)
    (err : String) (now : Int) (hout : node.output = some os) :
    (event_exporter_file_write node buf now (some err)).1.output
        = some ({ os with closed := true })
    ∧ (event_exporter_file_write node buf now (some err)).1.fd = node.fd
    ∧ (event_exporter_file_write node buf now (some err)).1.fname = node.fname
    ∧ (event_exporter_file_write node buf now (some err)).1.unix_socket
        = node.unix_socket
    ∧ (event_exporter_file_write node buf now (some err)).1.last_error
        = (if now - node.last_error > 60 then now else node.last_error)
    ∧ (event_exporter_file_write node buf now (some err)).2
        = (if now - node.last_error > 60 then [Diag.writeFailed os.name err]
           else []) := by
  by_cases hc : now - node.last_error > (60 : Int) <;>
    simp [event_exporter_file_write, hout, EXPORTER_LAST_ERROR_DELAY, hc]

/-- The slow open path never reports success when the OS call failed. -/
theorem open_fresh_error_not_ok (node : Node) (now : Int) (sid : Nat) (e : Nat) :
    (exporter_file_open_fresh node now sid (Except.error e)).2.2 = false := by
  cases hb : node.unix_socket <;>
    simp [exporter_file_open_fresh, exporter_file_open_unix,
      exporter_file_open_plain, exporter_file_open_error, hb] <;>
    split_ifs <;> simp_all

/-- A send on a node whose stream is open and not closed takes the fast path
of `exporter_file_open` (no new connection is constructed) and, when the
write succeeds, only appends the framed payload to the existing stream. -/
theorem send_on_open_node (node : Node) (os : OStream) (buf : List Byte)
    (now : Int) (sid : Nat) (res : Except Nat Nat)
    (hout : node.output = some os) (hopen : os.closed = false) :
    send_on_node node buf now sid res none
      = ({ node with output := some ({ os with written := os.written ++ (buf ++ [newlineByte]) }) }, []) := by
  simp [send_on_node, exporter_file_open, hout, hopen, event_exporter_file_write]

/-! ## Claim theorems -/

/-- C7: a successful send emits exactly the payload bytes followed by a single
newline byte, appended to the stream in one vectored step, with no diagnostic;
the write path is one and the same function for file-kind and socket-kind
nodes, so the framing is identical on both transports. -/
theorem write_appends_payload_then_newline
    (node : Node) (os : OStream) (buf : List Byte) (now : Int)
    (hout : node.output = some os) :
    (event_exporter_file_write node buf now none).1.output
        = some ({ os with written := os.written ++ (buf ++ [newlineByte]) })
    ∧ (event_exporter_file_write node buf now none).2 = []
    ∧ (∀ b : Bool,
        (event_exporter_file_write { node with unix_socket := b } buf now none).1.output
          = some ({ os with written := os.written ++ (buf ++ [newlineByte]) })
        ∧ (event_exporter_file_write { node with unix_socket := b } buf now none).2
          = []) := by
  refine ⟨?_, ?_, fun b => ⟨?_, ?_⟩⟩ <;>
    simp [event_exporter_file_write, hout]

/-- Witness for C7 at the payload `hello` on a concrete open node. -/
theorem write_appends_payload_then_newline_witness :
    wNode.output = some wOS
    ∧ ((event_exporter_file_write wNode helloBytes 5 none).1.output
          = some ({ wOS with written := wOS.written ++ (helloBytes ++ [newlineByte]) })
       ∧ (event_exporter_file_write wNode helloBytes 5 none).2 = []
       ∧ (∀ b : Bool,
          (event_exporter_file_write { wNode with unix_socket := b } helloBytes 5 none).1.output
            = some ({ wOS with written := wOS.written ++ (helloBytes ++ [newlineByte]) })
          ∧ (event_exporter_file_write { wNode with unix_socket := b } helloBytes 5 none).2
            = [])) :=
  ⟨rfl, write_appends_payload_then_newline wNode wOS helloBytes 5 rfl⟩

/-- C2: a write failure closes the node's stream unconditionally — with the
same closed result whether or not the diagnostic was within the 60-second
cooldown (the `now` and `last_error` here are arbitrary) — and the node stays
eligible for a later reopen: a subsequent ensure-open with an available
descriptor succeeds and yields an open stream again. -/
theorem write_failure_always_closes
    (node : Node) (os : OStream) (buf : List Byte) (err : String)
    (now now2 : Int) (sid fd2 : Nat)
    (hout : node.output = some os) :
    (event_exporter_file_write node buf now (some err)).1.output
        = some ({ os with closed := true })
    ∧ (event_exporter_file_write node buf now (some err)).1.fd = node.fd
    ∧ (exporter_file_open (event_exporter_file_write node buf now (some err)).1
          now2 sid (Except.ok fd2)).2.2 = true
    ∧ (∃ os2,
        (exporter_file_open (event_exporter_file_write node buf now (some err)).1
            now2 sid (Except.ok fd2)).1.output = some os2
        ∧ os2.closed = false) := by
  obtain ⟨h1, h2, -, -, -, -⟩ := write_failure_shape node os buf err now hout
  have hopen := open_ok_of_closed (event_exporter_file_write node buf now (some err)).1
    ({ os with closed := true }) now2 sid fd2 h1 rfl
  refine ⟨h1, h2, ?_, ?_⟩
  · rw [hopen]
  · rw [hopen]
    exact ⟨named_stream sid _, rfl, rfl⟩

/-- Witness for C2 on a concrete open node, inside the cooldown window (the
failure at time 5 is suppressed, the stream is closed anyway). -/
theorem write_failure_always_closes_witness :
    wNode.output = some wOS
    ∧ ((event_exporter_file_write wNode helloBytes 5 (some "boom")).1.output
          = some ({ wOS with closed := true })
       ∧ (event_exporter_file_write wNode helloBytes 5 (some "boom")).1.fd = wNode.fd
       ∧ (exporter_file_open (event_exporter_file_write wNode helloBytes 5 (some "boom")).1
             6 1 (Except.ok 9)).2.2 = true
       ∧ (∃ os2,
           (exporter_file_open (event_exporter_file_write wNode helloBytes 5 (some "boom")).1
               6 1 (Except.ok 9)).1.output = some os2
           ∧ os2.closed = false)) :=
  ⟨rfl, write_failure_always_closes wNode wOS helloBytes "boom" 5 6 1 9 rfl⟩

/-- C10: a flush failure detected while closing a node is reported without
consulting the cooldown window (`now` and the node's `last_error` are
arbitrary here, so in particular the report also happens less than 60 seconds
after the previous one), and reporting it stamps the node's `last_error`;
this is the close path that both `reopen_all` and teardown invoke, as the
last two conjuncts show on a one-node registry. -/
theorem close_flush_failure_always_reported
    (node : Node) (os : OStream) (now : Int) (err : String)
    (hout : node.output = some os) (hux : node.unix_socket = false) :
    (exporter_file_close node now (some err)).2 = [Diag.finishFailed node.fname err]
    ∧ (exporter_file_close node now (some err)).1.last_error = now
    ∧ (event_exporter_file_reopen ⟨[(0, node)], 1, 1, []⟩ now
          (fun _ => some err)).diags = [Diag.finishFailed node.fname err]
    ∧ (event_exporter_file_deinit ⟨[(0, node)], 1, 1, []⟩ now
          (fun _ => some err)).diags = [Diag.finishFailed node.fname err] := by
  refine ⟨?_, ?_, ?_, ?_⟩
  · simp [exporter_file_close, hout]
  · simp [exporter_file_close, hout]
  · simp [event_exporter_file_reopen, reopen_entry_diags, exporter_file_close,
      hout, hux]
  · simp [event_exporter_file_deinit, exporter_file_close, hout]

/-- Witness for C10: the node reported a failure at time 50, the flush
failure at time 60 (10 seconds later, inside the cooldown) is still
reported. -/
theorem close_flush_failure_always_reported_witness :
    ({ wNode with last_error := 50 } : Node).output = some wOS
    ∧ ({ wNode with last_error := 50 } : Node).unix_socket = false
    ∧ ((exporter_file_close { wNode with last_error := 50 } 60 (some "flush boom")).2
          = [Diag.finishFailed wNode.fname "flush boom"]
       ∧ (exporter_file_close { wNode with last_error := 50 } 60 (some "flush boom")).1.last_error = 60
       ∧ (event_exporter_file_reopen ⟨[(0, { wNode with last_error := 50 })], 1, 1, []⟩ 60
             (fun _ => some "flush boom")).diags = [Diag.finishFailed wNode.fname "flush boom"]
       ∧ (event_exporter_file_deinit ⟨[(0, { wNode with last_error := 50 })], 1, 1, []⟩ 60
             (fun _ => some "flush boom")).diags = [Diag.finishFailed wNode.fname "flush boom"]) :=
  ⟨rfl, rfl, close_flush_failure_always_reported { wNode with last_error := 50 }
    wOS 60 "flush boom" rfl rfl⟩

/-- C8: when an open or connect failure is reported, `EACCES` yields the
specialized insufficient-privilege-to-create diagnostic and every other errno
yields the generic diagnostic naming the failed function (`open` for the file
opener, `connect` for the socket opener) and the destination. -/
theorem open_error_classification
    (node : Node) (func : String) (errno : Nat) (now : Int) (sid : Nat)
    (hdorm : node.output = none) :
    (exporter_file_open_error node func errno now).2
      = [if errno = EACCES then Diag.eaccesCreating func node.fname
         else Diag.openFailed func node.fname]
    ∧ (node.unix_socket = false → now - node.last_error > 60 →
        (exporter_file_open node now sid (Except.error errno)).2.1
          = [if errno = EACCES then Diag.eaccesCreating "open" node.fname
             else Diag.openFailed "open" node.fname])
    ∧ (node.unix_socket = true → now - node.last_error > 60 →
        (exporter_file_open node now sid (Except.error errno)).2.1
          = [if errno = EACCES then Diag.eaccesCreating "connect" node.fname
             else Diag.openFailed "connect" node.fname]) := by
  refine ⟨?_, fun hux hc => ?_, fun hux hc => ?_⟩
  · by_cases he : errno = EACCES <;> simp [exporter_file_open_error, he]
  · by_cases he : errno = EACCES <;>
      simp [exporter_file_open, hdorm, exporter_file_open_fresh, hux,
        exporter_file_open_plain, exporter_file_open_error,
        EXPORTER_LAST_ERROR_DELAY, hc, he]
  · by_cases he : errno = EACCES <;>
      simp [exporter_file_open, hdorm, exporter_file_open_fresh, hux,
        exporter_file_open_unix, exporter_file_open_error,
        EXPORTER_LAST_ERROR_DELAY, hc, he]

/-- Witness for C8 on a dormant file-kind node at `errno = EACCES` outside
the cooldown. -/
theorem open_error_classification_witness :
    ({ wNode with output := none, fd := -1 } : Node).output = none
    ∧ ((exporter_file_open_error { wNode with output := none, fd := -1 } "open" 13 100).2
          = [if 13 = EACCES then Diag.eaccesCreating "open" wNode.fname
             else Diag.openFailed "open" wNode.fname]
       ∧ (({ wNode with output := none, fd := -1 } : Node).unix_socket = false →
           (100 : Int) - ({ wNode with output := none, fd := -1 } : Node).last_error > 60 →
           (exporter_file_open { wNode with output := none, fd := -1 } 100 7 (Except.error 13)).2.1
             = [if 13 = EACCES then Diag.eaccesCreating "open" wNode.fname
                else Diag.openFailed "open" wNode.fname])
       ∧ (({ wNode with output := none, fd := -1 } : Node).unix_socket = true →
           (100 : Int) - ({ wNode with output := none, fd := -1 } : Node).last_error > 60 →
           (exporter_file_open { wNode with output := none, fd := -1 } 100 7 (Except.error 13)).2.1
             = [if 13 = EACCES then Diag.eaccesCreating "connect" wNode.fname
                else Diag.openFailed "connect" wNode.fname])) :=
  ⟨rfl, open_error_classification { wNode with output := none, fd := -1 }
    "open" 13 100 7 rfl⟩

/-- C6: ensure-open on a destination whose sink is already open is the
identity — it returns TRUE without constructing a new connection, whatever
outcome the OS would have offered — so across consecutive successful sends the
handle keeps its identity (same stream object `sid`, same descriptor). -/
theorem lazy_open_idempotent
    (node : Node) (os : OStream) (now now2 : Int) (sid sid2 : Nat)
    (res res2 : Except Nat Nat) (buf buf2 : List Byte)
    (hout : node.output = some os) (hopen : os.closed = false) :
    exporter_file_open node now sid res = (node, [], true)
    ∧ (send_on_node node buf now sid res none).1.fd = node.fd
    ∧ (∃ os1, (send_on_node node buf now sid res none).1.output = some os1
        ∧ os1.sid = os.sid ∧ os1.closed = false)
    ∧ (send_on_node (send_on_node node buf now sid res none).1
          buf2 now2 sid2 res2 none).1.fd = node.fd
    ∧ (∃ os2, (send_on_node (send_on_node node buf now sid res none).1
          buf2 now2 sid2 res2 none).1.output = some os2 ∧ os2.sid = os.sid) := by
  have h1 := send_on_open_node node os buf now sid res hout hopen
  have h2 := send_on_open_node (send_on_node node buf now sid res none).1
    ({ os with written := os.written ++ (buf ++ [newlineByte]) }) buf2 now2 sid2 res2
    (by rw [h1]) hopen
  refine ⟨?_, ?_, ?_, ?_, ?_⟩
  · simp [exporter_file_open, hout, hopen]
  · rw [h1]
  · rw [h1]
    exact ⟨_, rfl, rfl, hopen⟩
  · rw [h2, h1]
  · rw [h2, h1]
    exact ⟨_, rfl, rfl⟩

/-- Witness for C6: two consecutive successful sends on a concrete open
node. -/
theorem lazy_open_idempotent_witness :
    wNode.output = some wOS
    ∧ wOS.closed = false
    ∧ (exporter_file_open wNode 5 7 (Except.ok 9) = (wNode, [], true)
       ∧ (send_on_node wNode helloBytes 5 7 (Except.ok 9) none).1.fd = wNode.fd
       ∧ (∃ os1, (send_on_node wNode helloBytes 5 7 (Except.ok 9) none).1.output = some os1
           ∧ os1.sid = wOS.sid ∧ os1.closed = false)
       ∧ (send_on_node (send_on_node wNode helloBytes 5 7 (Except.ok 9) none).1
             helloBytes 6 8 (Except.ok 11) none).1.fd = wNode.fd
       ∧ (∃ os2, (send_on_node (send_on_node wNode helloBytes 5 7 (Except.ok 9) none).1
             helloBytes 6 8 (Except.ok 11) none).1.output = some os2 ∧ os2.sid = wOS.sid)) :=
  ⟨rfl, rfl, lazy_open_idempotent wNode wOS 5 6 7 8 (Except.ok 9) (Except.ok 11)
    helloBytes helloBytes rfl rfl⟩

/-- The invariant exactly as claim C3 states it: the handle is fully open and
writable — descriptor set (non-negative) and stream present and not closed —
or fully absent: descriptor -1 and no stream.  In particular a set descriptor
with a closed or missing stream is ruled out. -/
def handle_fully_open_or_absent (n : Node) : Bool :=
  (match n.output with
   | some os => !os.closed && decide (0 ≤ n.fd)
   | none => false)
  || (decide (n.fd = -1) && n.output.isNone)

/-- Counterexample to C3 as stated: a write failure on a concretely open node
leaves the descriptor set (still 4) while the stream is set but closed — the
state the claim says never occurs — and this state is the operation's final
result, persisting until the next ensure-open or close. -/
theorem handle_atomicity_counterexample :
    handle_fully_open_or_absent wNode = true
    ∧ handle_fully_open_or_absent
        (event_exporter_file_write wNode helloBytes 5 (some "boom")).1 = false
    ∧ (event_exporter_file_write wNode helloBytes 5 (some "boom")).1.fd = 4
    ∧ (event_exporter_file_write wNode helloBytes 5 (some "boom")).1.output
        = some ({ wOS with closed := true }) := by
  refine ⟨by decide, by decide, by decide, by decide⟩

/-- The amended invariant: descriptor and stream are set together or absent
together (a set descriptor never has a missing stream and vice versa); the
stream, when set, may be closed after a write failure. -/
def handle_set_together (n : Node) : Bool :=
  match n.output with
  | some _ => decide (0 ≤ n.fd)
  | none => decide (n.fd = -1)

/-- C3 amended: every operation — ensure-open with any OS outcome, write with
any outcome, close with any flush outcome, and node creation — preserves the
invariant that descriptor and stream are set together or absent together;
moreover a successful ensure-open always leaves the stream open (not closed),
so the only deviation from the original claim is the closed-but-set stream a
write failure leaves behind. -/
theorem handle_set_together_preserved
    (node : Node) (now : Int) (sid : Nat) (res : Except Nat Nat)
    (buf : List Byte) (wr : Option String) (flushErr : Option String)
    (ex : Exporter) (us : Bool)
    (h : handle_set_together node = true) :
    handle_set_together (exporter_file_open node now sid res).1 = true
    ∧ handle_set_together (event_exporter_file_write node buf now wr).1 = true
    ∧ handle_set_together (exporter_file_close node now flushErr).1 = true
    ∧ handle_set_together (exporter_file_init_node ex us) = true
    ∧ (∀ os2, (exporter_file_open node now sid res).2.2 = true →
        (exporter_file_open node now sid res).1.output = some os2 →
        os2.closed = false) := by
  refine ⟨?_, ?_, ?_, ?_, ?_⟩
  · cases hout : node.output <;> cases res <;> cases hb : node.unix_socket <;>
      simp [exporter_file_open, hout, exporter_file_open_fresh, hb,
        exporter_file_open_unix, exporter_file_open_plain,
        exporter_file_open_error, node_set_name, o_stream_create,
        handle_set_together] <;>
      split_ifs <;> simp_all [handle_set_together]
  · cases hout : node.output <;> cases wr <;>
      (try simp [event_exporter_file_write, hout, handle_set_together]) <;>
      (try split_ifs) <;> simp_all [handle_set_together]
  · cases hout : node.output <;> cases flushErr <;>
      simp [exporter_file_close, hout, handle_set_together]
  · simp [exporter_file_init_node, handle_set_together]
  · intro os2 hok hout2
    cases hout : node.output with
    | some os =>
      by_cases hcl : os.closed
      · cases res with
        | ok fd2 =>
          have heq := open_ok_of_closed node os now sid fd2 hout hcl
          rw [heq] at hout2
          simp only [Option.some.injEq] at hout2
          rw [← hout2]
          rfl
        | error e =>
          exfalso
          have hf : (exporter_file_open node now sid (Except.error e)).2.2 = false := by
            simp only [exporter_file_open, hout, hcl, if_true]
            exact open_fresh_error_not_ok _ now sid e
          rw [hf] at hok
          cases hok
      · have hid : (exporter_file_open node now sid res).1 = node := by
          simp [exporter_file_open, hout, hcl]
        rw [hid, hout] at hout2
        cases hout2
        simpa using hcl
    | none =>
      cases res with
      | ok fd2 =>
        have heq := open_ok_of_dormant node now sid fd2 hout
        rw [heq] at hout2
        simp only [Option.some.injEq] at hout2
        rw [← hout2]
        rfl
      | error e =>
        exfalso
        have hf : (exporter_file_open node now sid (Except.error e)).2.2 = false := by
          simp only [exporter_file_open, hout]
          exact open_fresh_error_not_ok _ now sid e
        rw [hf] at hok
        cases hok

/-- Witness for the amended C3 on a concrete open node with a failing write
outcome. -/
theorem handle_set_together_preserved_witness :
    handle_set_together wNode = true
    ∧ (handle_set_together (exporter_file_open wNode 5 7 (Except.ok 9)).1 = true
       ∧ handle_set_together (event_exporter_file_write wNode helloBytes 5 (some "boom")).1 = true
       ∧ handle_set_together (exporter_file_close wNode 5 (some "flush boom")).1 = true
       ∧ handle_set_together (exporter_file_init_node ⟨"dest.log 42", 250, none⟩ false) = true
       ∧ (∀ os2, (exporter_file_open wNode 5 7 (Except.ok 9)).2.2 = true →
           (exporter_file_open wNode 5 7 (Except.ok 9)).1.output = some os2 →
           os2.closed = false)) :=
  ⟨by decide, handle_set_together_preserved wNode 5 7 (Except.ok 9) helloBytes
    (some "boom") (some "flush boom") ⟨"dest.log 42", 250, none⟩ false (by decide)⟩

/-- C9: the node keeps one `last_error` timestamp shared by all failure
kinds: a reported open failure, a reported write failure, and a reported
close/flush failure all stamp the same field with the current time, and a
node stamped at time `t` — by whichever kind — suppresses both write-failure
and open-failure diagnostics for the following 60 seconds; the last conjunct
composes this across kinds (flush failure reported at `t`, write failure at
`t2` within the window emits nothing). -/
theorem shared_last_error_timestamp
    (node : Node) (os : OStream) (func err err2 : String) (errno : Nat)
    (buf : List Byte) (t t2 : Int) (sid fd2 : Nat)
    (hout : node.output = some os) :
    (exporter_file_open_error node func errno t).1.last_error = t
    ∧ (t - node.last_error > 60 →
        (event_exporter_file_write node buf t (some err)).1.last_error = t)
    ∧ (exporter_file_close node t (some err)).1.last_error = t
    ∧ (t2 - t ≤ 60 →
        (event_exporter_file_write { node with last_error := t } buf t2 (some err)).2 = [])
    ∧ (t2 - t ≤ 60 → ∀ nd : Node, nd.output = none → nd.last_error = t →
        (exporter_file_open nd t2 sid (Except.error errno)).2.1 = [])
    ∧ (t2 - t ≤ 60 →
        (event_exporter_file_write
          (exporter_file_open (exporter_file_close node t (some err)).1 t2 sid
            (Except.ok fd2)).1
          buf t2 (some err2)).2 = []) := by
  refine ⟨?_, fun hc => ?_, ?_, fun hc => ?_, fun hc nd hnd hnl => ?_, fun hc => ?_⟩
  · simp [exporter_file_open_error]
  · simp [event_exporter_file_write, hout, EXPORTER_LAST_ERROR_DELAY, hc]
  · simp [exporter_file_close, hout]
  · simp [event_exporter_file_write, hout, EXPORTER_LAST_ERROR_DELAY,
      show ¬((60 : Int) < t2 - t) from by omega]
  · cases hb : nd.unix_socket <;>
      simp [exporter_file_open, hnd, exporter_file_open_fresh, hb,
        exporter_file_open_unix, exporter_file_open_plain,
        exporter_file_open_error, EXPORTER_LAST_ERROR_DELAY, hnl,
        show ¬((60 : Int) < t2 - t) from by omega]
  · have h1 : (exporter_file_close node t (some err)).1
        = { node with output := none, fd := -1, last_error := t } := by
      simp [exporter_file_close, hout]
    rw [h1, open_ok_of_dormant _ t2 sid fd2 rfl]
    simp [event_exporter_file_write, named_stream, EXPORTER_LAST_ERROR_DELAY,
      show ¬((60 : Int) < t2 - t) from by omega]

/-- Witness for C9: a node that reported at time 100; follow-up failures at
time 150 (50 seconds later) are suppressed across kinds. -/
theorem shared_last_error_timestamp_witness :
    wNode.output = some wOS
    ∧ ((exporter_file_open_error wNode "open" 5 100).1.last_error = 100
       ∧ ((100 : Int) - wNode.last_error > 60 →
           (event_exporter_file_write wNode helloBytes 100 (some "boom")).1.last_error = 100)
       ∧ (exporter_file_close wNode 100 (some "boom")).1.last_error = 100
       ∧ ((150 : Int) - 100 ≤ 60 →
           (event_exporter_file_write { wNode with last_error := 100 } helloBytes 150 (some "boom")).2 = [])
       ∧ ((150 : Int) - 100 ≤ 60 → ∀ nd : Node, nd.output = none → nd.last_error = 100 →
           (exporter_file_open nd 150 7 (Except.error 5)).2.1 = [])
       ∧ ((150 : Int) - 100 ≤ 60 →
           (event_exporter_file_write
             (exporter_file_open (exporter_file_close wNode 100 (some "boom")).1 150 7
               (Except.ok 9)).1
             helloBytes 150 (some "later boom")).2 = [])) :=
  ⟨rfl, shared_last_error_timestamp wNode wOS "open" "boom" "later boom" 5
    helloBytes 100 150 7 9 rfl⟩

/-- C1: on the send path a failure diagnostic is emitted exactly when more
than 60 seconds have elapsed since the node's last reported error (conjuncts
one and two, for write failures and open failures); consequently two write
failures on the same destination less than 60 seconds apart emit exactly one
diagnostic, and two write failures 61 or more seconds apart emit two
(conjuncts three and four, over the failure/reopen/failure trace). -/
theorem send_failure_throttle
    (node : Node) (os : OStream) (nd : Node) (buf : List Byte) (err : String)
    (errno : Nat) (sid sid2 fd2 : Nat) (t1 t2 : Int)
    (hout : node.output = some os)
    (hnd : nd.output = none) :
    ((event_exporter_file_write node buf t1 (some err)).2 ≠ []
        ↔ t1 - node.last_error > 60)
    ∧ ((exporter_file_open nd t1 sid (Except.error errno)).2.1 ≠ []
        ↔ t1 - nd.last_error > 60)
    ∧ (t1 - node.last_error > 60 → t2 - t1 < 60 →
        ((event_exporter_file_write node buf t1 (some err)).2
         ++ (exporter_file_open (event_exporter_file_write node buf t1 (some err)).1
              t2 sid2 (Except.ok fd2)).2.1
         ++ (event_exporter_file_write
              (exporter_file_open (event_exporter_file_write node buf t1 (some err)).1
                t2 sid2 (Except.ok fd2)).1 buf t2 (some err)).2).length = 1)
    ∧ (t1 - node.last_error > 60 → t2 - t1 ≥ 61 →
        ((event_exporter_file_write node buf t1 (some err)).2
         ++ (exporter_file_open (event_exporter_file_write node buf t1 (some err)).1
              t2 sid2 (Except.ok fd2)).2.1
         ++ (event_exporter_file_write
              (exporter_file_open (event_exporter_file_write node buf t1 (some err)).1
                t2 sid2 (Except.ok fd2)).1 buf t2 (some err)).2).length = 2) := by
  obtain ⟨hw1, -, -, -, hw5, hw6⟩ := write_failure_shape node os buf err t1 hout
  have hopen := open_ok_of_closed (event_exporter_file_write node buf t1 (some err)).1
    ({ os with closed := true }) t2 sid2 fd2 hw1 rfl
  refine ⟨?_, ?_, fun hc1 hc2 => ?_, fun hc1 hc2 => ?_⟩
  · by_cases hc : t1 - node.last_error > (60 : Int) <;>
      simp [event_exporter_file_write, hout, EXPORTER_LAST_ERROR_DELAY, hc]
  · by_cases hc : t1 - nd.last_error > (60 : Int) <;>
      cases hb : nd.unix_socket <;>
      simp [exporter_file_open, hnd, exporter_file_open_fresh, hb,
        exporter_file_open_unix, exporter_file_open_plain,
        exporter_file_open_error, EXPORTER_LAST_ERROR_DELAY, hc]
  · have hle : (event_exporter_file_write node buf t1 (some err)).1.last_error = t1 := by
      rw [hw5, if_pos hc1]
    have hd1 : (event_exporter_file_write node buf t1 (some err)).2
        = [Diag.writeFailed os.name err] := by
      rw [hw6, if_pos hc1]
    rw [hle] at hopen
    rw [hd1, hopen]
    simp only [event_exporter_file_write, named_stream]
    rw [if_neg (by unfold EXPORTER_LAST_ERROR_DELAY; omega)]
    rfl
  · have hle : (event_exporter_file_write node buf t1 (some err)).1.last_error = t1 := by
      rw [hw5, if_pos hc1]
    have hd1 : (event_exporter_file_write node buf t1 (some err)).2
        = [Diag.writeFailed os.name err] := by
      rw [hw6, if_pos hc1]
    rw [hle] at hopen
    rw [hd1, hopen]
    simp only [event_exporter_file_write, named_stream]
    rw [if_pos (by unfold EXPORTER_LAST_ERROR_DELAY; omega)]
    rfl

/-- Witness for C1: first failure at time 100 on a node that last reported at
0 (reported), second failure 50 seconds later (suppressed: one diagnostic in
total). -/
theorem send_failure_throttle_witness :
    wNode.output = some wOS
    ∧ ({ wNode with output := none, fd := -1 } : Node).output = none
    ∧ (((event_exporter_file_write wNode helloBytes 100 (some "boom")).2 ≠ []
          ↔ (100 : Int) - wNode.last_error > 60)
       ∧ ((exporter_file_open { wNode with output := none, fd := -1 } 100 7 (Except.error 5)).2.1 ≠ []
          ↔ (100 : Int) - ({ wNode with output := none, fd := -1 } : Node).last_error > 60)
       ∧ ((100 : Int) - wNode.last_error > 60 → (150 : Int) - 100 < 60 →
          ((event_exporter_file_write wNode helloBytes 100 (some "boom")).2
           ++ (exporter_file_open (event_exporter_file_write wNode helloBytes 100 (some "boom")).1
                150 8 (Except.ok 9)).2.1
           ++ (event_exporter_file_write
                (exporter_file_open (event_exporter_file_write wNode helloBytes 100 (some "boom")).1
                  150 8 (Except.ok 9)).1 helloBytes 150 (some "boom")).2).length = 1)
       ∧ ((100 : Int) - wNode.last_error > 60 → (150 : Int) - 100 ≥ 61 →
          ((event_exporter_file_write wNode helloBytes 100 (some "boom")).2
           ++ (exporter_file_open (event_exporter_file_write wNode helloBytes 100 (some "boom")).1
                150 8 (Except.ok 9)).2.1
           ++ (event_exporter_file_write
                (exporter_file_open (event_exporter_file_write wNode helloBytes 100 (some "boom")).1
                  150 8 (Except.ok 9)).1 helloBytes 150 (some "boom")).2).length = 2)) :=
  ⟨rfl, rfl, send_failure_throttle wNode wOS { wNode with output := none, fd := -1 }
    helloBytes "boom" 5 7 8 9 100 150 rfl rfl⟩

/-- Looking up a key that is found means the pair is in the list. -/
theorem lookupNode_mem (l : List (Nat × Node)) (id : Nat) (n : Node)
    (h : lookupNode l id = some n) : (id, n) ∈ l := by
  induction l with
  | nil => simp [lookupNode] at h
  | cons p t ih =>
    obtain ⟨i, m⟩ := p
    by_cases hi : i = id
    · subst hi
      simp [lookupNode] at h
      subst h
      exact List.mem_cons_self _ _
    · simp only [lookupNode, if_neg hi] at h
      exact List.mem_cons_of_mem _ (ih h)

/-- Writing back a node under a key that was found makes later lookups of
that key see the new node. -/
theorem lookupNode_update_self (l : List (Nat × Node)) (id : Nat) (m n : Node)
    (h : lookupNode l id = some m) :
    lookupNode (updateNode l id n) id = some n := by
  induction l with
  | nil => simp [lookupNode] at h
  | cons p t ih =>
    obtain ⟨i, q⟩ := p
    by_cases hi : i = id
    · subst hi
      have hf : updateNode ((i, q) :: t) i n = (i, n) :: updateNode t i n := by
        simp [updateNode]
      rw [hf]
      simp [lookupNode]
    · simp only [lookupNode, if_neg hi] at h
      have hf : updateNode ((i, q) :: t) id n = (i, q) :: updateNode t id n := by
        simp [updateNode, hi]
      rw [hf]
      simpa [lookupNode, hi] using ih h

/-- Lookup through the reopen broadcast: the found node is closed exactly
when it is file-kind. -/
theorem lookupNode_reopen (l : List (Nat × Node)) (id : Nat) (now : Int)
    (fe : Nat → Option String) :
    lookupNode (l.map (reopen_entry now fe)) id
      = (lookupNode l id).map
          (fun n => if n.unix_socket then n
                    else (exporter_file_close n now (fe id)).1) := by
  induction l with
  | nil => rfl
  | cons p t ih =>
    obtain ⟨i, q⟩ := p
    by_cases hq : q.unix_socket
    · have hf : reopen_entry now fe (i, q) = (i, q) := by
        simp [reopen_entry, hq]
      by_cases hi : i = id <;>
        · rw [List.map_cons, hf]
          simp [lookupNode, hi, hq, ih]
    · have hf : reopen_entry now fe (i, q)
          = (i, (exporter_file_close q now (fe i)).1) := by
        simp [reopen_entry, hq]
      by_cases hi : i = id <;>
        · rw [List.map_cons, hf]
          simp [lookupNode, hi, hq, ih]

/-- `exporter_file_close` always clears the stream and the descriptor and
touches nothing else structural. -/
theorem close_clears (n : Node) (now : Int) (fe : Option String) :
    (exporter_file_close n now fe).1.output = none
    ∧ (exporter_file_close n now fe).1.fd = -1
    ∧ (exporter_file_close n now fe).1.unix_socket = n.unix_socket
    ∧ (exporter_file_close n now fe).1.fname = n.fname := by
  cases ho : n.output <;> cases fe <;> simp [exporter_file_close, ho]

/-- A send on a dormant node with an available descriptor installs a stream
carrying exactly the supplied fresh identity, whatever the write outcome. -/
theorem send_on_dormant_sid (node : Node) (buf : List Byte) (now : Int)
    (sid fd2 : Nat) (wr : Option String) (hdorm : node.output = none) :
    ∃ os2, (send_on_node node buf now sid (Except.ok fd2) wr).1.output = some os2
      ∧ os2.sid = sid := by
  simp only [send_on_node]
  rw [open_ok_of_dormant node now sid fd2 hdorm]
  cases wr with
  | none =>
    refine ⟨{ named_stream sid node.fname with written := buf ++ [newlineByte] }, ?_, rfl⟩
    simp [event_exporter_file_write, named_stream]
  | some err =>
    refine ⟨{ named_stream sid node.fname with closed := true }, ?_, rfl⟩
    simp only [event_exporter_file_write, named_stream]
    split_ifs <;> rfl

/-- C4: teardown destroys every node and empties the registry; a send that
arrives afterwards — whatever transport context the exporter still carries —
registers exactly one node, under a fresh identity never used by any
pre-teardown node, built from the freshly initialized dormant node
(`exporter_file_init_node`) rather than from any stale per-destination
state. -/
theorem deinit_drains_registry
    (sys : Sys) (now t : Int) (flushErr : Nat → Option String)
    (ex : Exporter) (buf : List Byte) (res : Except Nat Nat) (wr : Option String)
    (hids : ∀ p ∈ sys.list, p.fst < sys.nextNodeId) :
    (event_exporter_file_deinit sys now flushErr).list = []
    ∧ (∀ p ∈ sys.list, p.fst ≠ sys.nextNodeId)
    ∧ (event_exporter_file_send (event_exporter_file_deinit sys now flushErr)
          ex buf t res wr).1.list
        = [(sys.nextNodeId,
            (send_on_node (exporter_file_init_node ex false) buf t sys.nextSid
              res wr).1)] := by
  refine ⟨rfl, fun p hp => Nat.ne_of_lt (hids p hp), ?_⟩
  cases hctx : ex.transport_context <;>
    simp [event_exporter_file_send, event_exporter_send, hctx,
      event_exporter_file_deinit, lookupNode, send_fresh, exporter_file_init,
      updateNode]

/-- Witness for C4: a one-node registry torn down, then a send from an
exporter still holding the stale context 0. -/
theorem deinit_drains_registry_witness :
    (∀ p ∈ (⟨[(0, wNode)], 1, 5, []⟩ : Sys).list,
        p.fst < (⟨[(0, wNode)], 1, 5, []⟩ : Sys).nextNodeId)
    ∧ ((event_exporter_file_deinit ⟨[(0, wNode)], 1, 5, []⟩ 10
          (fun _ => none)).list = []
       ∧ (∀ p ∈ (⟨[(0, wNode)], 1, 5, []⟩ : Sys).list, p.fst ≠ 1)
       ∧ (event_exporter_file_send
            (event_exporter_file_deinit ⟨[(0, wNode)], 1, 5, []⟩ 10 (fun _ => none))
            ⟨"stats.log", 250, some 0⟩ helloBytes 20 (Except.ok 9) none).1.list
          = [(1, (send_on_node
                (exporter_file_init_node ⟨"stats.log", 250, some 0⟩ false)
                helloBytes 20 5 (Except.ok 9) none).1)]) :=
  ⟨by decide, deinit_drains_registry ⟨[(0, wNode)], 1, 5, []⟩ 10 20
    (fun _ => none) ⟨"stats.log", 250, some 0⟩ helloBytes (Except.ok 9) none
    (by decide)⟩

/-- C5: the reopen broadcast keeps every node registered, leaves every
socket-kind node untouched, and closes every file-kind node (stream gone,
descriptor -1, i.e. dormant); consequently the next send on a file-kind node
that was open before the broadcast installs a freshly allocated handle whose
identity differs from the pre-reopen one. -/
theorem reopen_closes_files_spares_sockets
    (sys : Sys) (now t : Int) (flushErr : Nat → Option String)
    (id : Nat) (n : Node) (os : OStream) (ex : Exporter)
    (buf : List Byte) (fd2 : Nat) (wr : Option String)
    (hsid : ∀ p ∈ sys.list, ∀ os2, p.snd.output = some os2 →
        os2.sid < sys.nextSid) :
    (event_exporter_file_reopen sys now flushErr).list.length = sys.list.length
    ∧ (∀ p ∈ sys.list, p.snd.unix_socket = true →
        (p.fst, p.snd) ∈ (event_exporter_file_reopen sys now flushErr).list)
    ∧ (∀ p ∈ (event_exporter_file_reopen sys now flushErr).list,
        p.snd.unix_socket = false → p.snd.output = none ∧ p.snd.fd = -1)
    ∧ (ex.transport_context = some id → lookupNode sys.list id = some n →
        n.unix_socket = false → n.output = some os →
        ∃ n2 os2,
          lookupNode (event_exporter_file_send
              (event_exporter_file_reopen sys now flushErr) ex buf t
              (Except.ok fd2) wr).1.list id = some n2
          ∧ n2.output = some os2 ∧ os2.sid = sys.nextSid ∧ os2.sid ≠ os.sid) := by
  refine ⟨?_, ?_, ?_, fun hctx hlk hux hos => ?_⟩
  · simp [event_exporter_file_reopen]
  · intro p hp hpu
    have hm := List.mem_map_of_mem (reopen_entry now flushErr) hp
    rw [show reopen_entry now flushErr p = (p.fst, p.snd) from by
      simp [reopen_entry, hpu]] at hm
    simpa [event_exporter_file_reopen] using hm
  · intro p hp hpu
    simp only [event_exporter_file_reopen] at hp
    obtain ⟨q, hq, hqe⟩ := List.mem_map.1 hp
    by_cases hqu : q.snd.unix_socket
    · rw [show reopen_entry now flushErr q = q from by
        simp [reopen_entry, hqu]] at hqe
      subst hqe
      exact absurd hpu (by simp [hqu])
    · rw [show reopen_entry now flushErr q
          = (q.fst, (exporter_file_close q.snd now (flushErr q.fst)).1) from by
        simp [reopen_entry, hqu]] at hqe
      subst hqe
      exact ⟨(close_clears q.snd now (flushErr q.fst)).1,
             (close_clears q.snd now (flushErr q.fst)).2.1⟩
  · have hl2 : lookupNode (event_exporter_file_reopen sys now flushErr).list id
        = some ((exporter_file_close n now (flushErr id)).1) := by
      rw [show (event_exporter_file_reopen sys now flushErr).list
          = sys.list.map (reopen_entry now flushErr) from rfl]
      rw [lookupNode_reopen, hlk]
      simp [hux]
    have hdorm : (exporter_file_close n now (flushErr id)).1.output = none :=
      (close_clears n now (flushErr id)).1
    obtain ⟨os2, ho2, hs2⟩ := send_on_dormant_sid
      ((exporter_file_close n now (flushErr id)).1) buf t sys.nextSid fd2 wr hdorm
    have hsend : (event_exporter_file_send
          (event_exporter_file_reopen sys now flushErr) ex buf t
          (Except.ok fd2) wr).1.list
        = updateNode (event_exporter_file_reopen sys now flushErr).list id
            (send_on_node ((exporter_file_close n now (flushErr id)).1)
              buf t sys.nextSid (Except.ok fd2) wr).1 := by
      simp only [event_exporter_file_send, event_exporter_send, hctx, hl2]
      rfl
    refine ⟨(send_on_node ((exporter_file_close n now (flushErr id)).1)
        buf t sys.nextSid (Except.ok fd2) wr).1, os2, ?_, ho2, hs2, ?_⟩
    · rw [hsend]
      exact lookupNode_update_self _ id _ _ hl2
    · have hmem := lookupNode_mem sys.list id n hlk
      have hlt := hsid (id, n) hmem os hos
      omega

/-- Witness for C5 on a two-node registry: node 0 is an open file sink, node
1 an open unix-socket sink; the broadcast runs at time 10 and node 0 is
written again at time 20. -/
theorem reopen_closes_files_spares_sockets_witness :
    (∀ p ∈ (⟨[(0, wNode), (1, wSock)], 2, 3, []⟩ : Sys).list,
        ∀ os2, p.snd.output = some os2 → os2.sid < 3)
    ∧ ((event_exporter_file_reopen ⟨[(0, wNode), (1, wSock)], 2, 3, []⟩ 10
            (fun _ => none)).list.length
          = (⟨[(0, wNode), (1, wSock)], 2, 3, []⟩ : Sys).list.length
       ∧ (∀ p ∈ (⟨[(0, wNode), (1, wSock)], 2, 3, []⟩ : Sys).list,
            p.snd.unix_socket = true →
            (p.fst, p.snd) ∈ (event_exporter_file_reopen
              ⟨[(0, wNode), (1, wSock)], 2, 3, []⟩ 10 (fun _ => none)).list)
       ∧ (∀ p ∈ (event_exporter_file_reopen ⟨[(0, wNode), (1, wSock)], 2, 3, []⟩
              10 (fun _ => none)).list,
            p.snd.unix_socket = false → p.snd.output = none ∧ p.snd.fd = -1)
       ∧ ((⟨"stats.log", 250, some 0⟩ : Exporter).transport_context = some 0 →
          lookupNode (⟨[(0, wNode), (1, wSock)], 2, 3, []⟩ : Sys).list 0 = some wNode →
          wNode.unix_socket = false → wNode.output = some wOS →
          ∃ n2 os2,
            lookupNode (event_exporter_file_send
                (event_exporter_file_reopen ⟨[(0, wNode), (1, wSock)], 2, 3, []⟩
                  10 (fun _ => none))
                ⟨"stats.log", 250, some 0⟩ helloBytes 20
                (Except.ok 9) none).1.list 0 = some n2
            ∧ n2.output = some os2 ∧ os2.sid = 3 ∧ os2.sid ≠ wOS.sid)) :=
  ⟨by decide, reopen_closes_files_spares_sockets
    ⟨[(0, wNode), (1, wSock)], 2, 3, []⟩ 10 20 (fun _ => none) 0 wNode wOS
    ⟨"stats.log", 250, some 0⟩ helloBytes 9 none (by decide)⟩

end EventExporterFile
